import Mathlib

/-!
Verification development for `tools/checkpoint_conversion/convert_distilbert_checkpoints.py`,
a single-file script that downloads a HuggingFace DistilBERT config and vocab, remaps the
checkpoint weight tensors into the KerasHub layer naming and layout conventions, writes the
converted weights to `<preset>.h5`, and prints a numerical parity check.

The script is shallowly embedded: pure bookkeeping (the preset table, URL construction,
the weight-remapping table, and the transpose/reshape shape arithmetic) is translated
directly from the source; the outside world (network, tokenizer library, model libraries,
file hashing) is an explicit `Env` of outcomes, and the run of `main` is a function from
`Env` to a trace of observable events plus an `Except` result, so that uncaught Python
exceptions correspond to `Except.error` results that propagate out of `main`.
-/

namespace DistilBertConvert

/-! ## Reshape targets

A PyTorch `reshape` target dimension is either a fixed size or `-1`, meaning the size is
inferred from the total element count.  The source literal `-1` is embedded as `RDim.infer`.
-/

inductive RDim where
  | fixed (n : Nat)
  | infer
deriving DecidableEq

/-- product of the fixed dimensions of a reshape target. -/
def knownProd : List RDim → Nat
  | [] => 1
  | RDim.fixed n :: rest => n * knownProd rest
  | RDim.infer :: rest => knownProd rest

/-- number of inferred (`-1`) dimensions of a reshape target. -/
def inferCount : List RDim → Nat
  | [] => 0
  | RDim.fixed _ :: rest => inferCount rest
  | RDim.infer :: rest => 1 + inferCount rest

/-- replaces every inferred dimension by the value `v`. -/
def fillInfer (v : Nat) : List RDim → List Nat
  | [] => []
  | RDim.fixed n :: rest => n :: fillInfer v rest
  | RDim.infer :: rest => v :: fillInfer v rest

/-- shape semantics of `torch.reshape`: with no `-1` the target must multiply out to the
total element count; with one `-1` the missing dimension is `total / knownProd` and the
fixed product must be nonzero and divide the total; more than one `-1` is an error. -/
def resolveReshape (tgt : List RDim) (total : Nat) : Option (List Nat) :=
  if inferCount tgt = 0 then
    if knownProd tgt = total then some (fillInfer 0 tgt) else none
  else if inferCount tgt = 1 then
    if knownProd tgt ≠ 0 ∧ knownProd tgt ∣ total then
      some (fillInfer (total / knownProd tgt) tgt)
    else none
  else none

/-- shape semantics of `.transpose(1, 0)`: swap the first two dimensions. -/
def transposeShape : List Nat → Option (List Nat)
  | a :: b :: rest => some (b :: a :: rest)
  | _ => none

/-- the fixed tensor operation applied to a source tensor before assignment, as written in
the source: plain copy (`.numpy()`), `.transpose(1, 0)`, `.reshape(tgt)`, or
`.transpose(1, 0).reshape(tgt)`. -/
inductive WeightOp where
  | copy
  | transpose10
  | reshapeTo (tgt : List RDim)
  | transposeReshape (tgt : List RDim)
deriving DecidableEq

/-- shape transformation performed by a `WeightOp`. -/
def applyOpShape : WeightOp → List Nat → Option (List Nat)
  | WeightOp.copy, s => some s
  | WeightOp.transpose10, s => transposeShape s
  | WeightOp.reshapeTo tgt, s => resolveReshape tgt s.prod
  | WeightOp.transposeReshape tgt, s =>
      (transposeShape s).bind fun s2 => resolveReshape tgt s2.prod

/-! ## Configs

`convert_checkpoints` builds a KerasHub config `cfg` from the downloaded HF `config.json`
(source lines 83-92): `vocabulary_size` from `vocab_size`, `num_layers` from `n_layers`,
`num_heads` from `n_heads`, `hidden_dim` from `dim`, `intermediate_dim` from `hidden_dim`,
`dropout` from `dropout`, `max_sequence_length` from `max_position_embeddings`.
-/

structure PtConfig where
  vocab_size : Nat
  n_layers : Nat
  n_heads : Nat
  dim : Nat
  hidden_dim : Nat
  dropout : Rat
  max_position_embeddings : Nat
deriving DecidableEq

structure KHConfig where
  vocabulary_size : Nat
  num_layers : Nat
  num_heads : Nat
  hidden_dim : Nat
  intermediate_dim : Nat
  dropout : Rat
  max_sequence_length : Nat
deriving DecidableEq

def buildCfg (pt : PtConfig) : KHConfig :=
  ⟨pt.vocab_size, pt.n_layers, pt.n_heads, pt.dim, pt.hidden_dim,
   pt.dropout, pt.max_position_embeddings⟩

/-! ## Weight names

`HFParam` enumerates the keys of the HF `state_dict` read by the script, and `KHParam` the
KerasHub weight slots written to; `hfKey` and `khPath` render the exact strings used in the
source (the KerasHub path concatenates the `get_layer` name with the attribute chain).
-/

inductive HFParam where
  | wordEmb
  | posEmb
  | embLNw
  | embLNb
  | qW (i : Nat)
  | qB (i : Nat)
  | kW (i : Nat)
  | kB (i : Nat)
  | vW (i : Nat)
  | vB (i : Nat)
  | outW (i : Nat)
  | outB (i : Nat)
  | saLNw (i : Nat)
  | saLNb (i : Nat)
  | ffn1W (i : Nat)
  | ffn1B (i : Nat)
  | ffn2W (i : Nat)
  | ffn2B (i : Nat)
  | outLNw (i : Nat)
  | outLNb (i : Nat)
deriving DecidableEq

inductive KHParam where
  | tokenEmb
  | posEmb
  | embLNg
  | embLNb
  | qK (i : Nat)
  | qB (i : Nat)
  | kK (i : Nat)
  | kB (i : Nat)
  | vK (i : Nat)
  | vB (i : Nat)
  | oK (i : Nat)
  | oB (i : Nat)
  | saLNg (i : Nat)
  | saLNb (i : Nat)
  | ffiK (i : Nat)
  | ffiB (i : Nat)
  | ffoK (i : Nat)
  | ffoB (i : Nat)
  | ffLNg (i : Nat)
  | ffLNb (i : Nat)
deriving DecidableEq

def hfKey : HFParam → String
  | HFParam.wordEmb => "embeddings.word_embeddings.weight"
  | HFParam.posEmb => "embeddings.position_embeddings.weight"
  | HFParam.embLNw => "embeddings.LayerNorm.weight"
  | HFParam.embLNb => "embeddings.LayerNorm.bias"
  | HFParam.qW i => "transformer.layer." ++ toString i ++ ".attention.q_lin.weight"
  | HFParam.qB i => "transformer.layer." ++ toString i ++ ".attention.q_lin.bias"
  | HFParam.kW i => "transformer.layer." ++ toString i ++ ".attention.k_lin.weight"
  | HFParam.kB i => "transformer.layer." ++ toString i ++ ".attention.k_lin.bias"
  | HFParam.vW i => "transformer.layer." ++ toString i ++ ".attention.v_lin.weight"
  | HFParam.vB i => "transformer.layer." ++ toString i ++ ".attention.v_lin.bias"
  | HFParam.outW i => "transformer.layer." ++ toString i ++ ".attention.out_lin.weight"
  | HFParam.outB i => "transformer.layer." ++ toString i ++ ".attention.out_lin.bias"
  | HFParam.saLNw i => "transformer.layer." ++ toString i ++ ".sa_layer_norm.weight"
  | HFParam.saLNb i => "transformer.layer." ++ toString i ++ ".sa_layer_norm.bias"
  | HFParam.ffn1W i => "transformer.layer." ++ toString i ++ ".ffn.lin1.weight"
  | HFParam.ffn1B i => "transformer.layer." ++ toString i ++ ".ffn.lin1.bias"
  | HFParam.ffn2W i => "transformer.layer." ++ toString i ++ ".ffn.lin2.weight"
  | HFParam.ffn2B i => "transformer.layer." ++ toString i ++ ".ffn.lin2.bias"
  | HFParam.outLNw i => "transformer.layer." ++ toString i ++ ".output_layer_norm.weight"
  | HFParam.outLNb i => "transformer.layer." ++ toString i ++ ".output_layer_norm.bias"

def khPath : KHParam → String
  | KHParam.tokenEmb => "token_and_position_embedding.token_embedding.embeddings"
  | KHParam.posEmb => "token_and_position_embedding.position_embedding.position_embeddings"
  | KHParam.embLNg => "embeddings_layer_norm.gamma"
  | KHParam.embLNb => "embeddings_layer_norm.beta"
  | KHParam.qK i =>
      "transformer_layer_" ++ toString i ++ "._self_attention_layer._query_dense.kernel"
  | KHParam.qB i =>
      "transformer_layer_" ++ toString i ++ "._self_attention_layer._query_dense.bias"
  | KHParam.kK i =>
      "transformer_layer_" ++ toString i ++ "._self_attention_layer._key_dense.kernel"
  | KHParam.kB i =>
      "transformer_layer_" ++ toString i ++ "._self_attention_layer._key_dense.bias"
  | KHParam.vK i =>
      "transformer_layer_" ++ toString i ++ "._self_attention_layer._value_dense.kernel"
  | KHParam.vB i =>
      "transformer_layer_" ++ toString i ++ "._self_attention_layer._value_dense.bias"
  | KHParam.oK i =>
      "transformer_layer_" ++ toString i ++ "._self_attention_layer._output_dense.kernel"
  | KHParam.oB i =>
      "transformer_layer_" ++ toString i ++ "._self_attention_layer._output_dense.bias"
  | KHParam.saLNg i =>
      "transformer_layer_" ++ toString i ++ "._self_attention_layer_norm.gamma"
  | KHParam.saLNb i =>
      "transformer_layer_" ++ toString i ++ "._self_attention_layer_norm.beta"
  | KHParam.ffiK i =>
      "transformer_layer_" ++ toString i ++ "._feedforward_intermediate_dense.kernel"
  | KHParam.ffiB i =>
      "transformer_layer_" ++ toString i ++ "._feedforward_intermediate_dense.bias"
  | KHParam.ffoK i =>
      "transformer_layer_" ++ toString i ++ "._feedforward_output_dense.kernel"
  | KHParam.ffoB i =>
      "transformer_layer_" ++ toString i ++ "._feedforward_output_dense.bias"
  | KHParam.ffLNg i =>
      "transformer_layer_" ++ toString i ++ "._feedforward_layer_norm.gamma"
  | KHParam.ffLNb i =>
      "transformer_layer_" ++ toString i ++ "._feedforward_layer_norm.beta"

/-! ## The weight-remapping table (source lines 106-233) -/

structure Assignment where
  dst : KHParam
  src : HFParam
  op : WeightOp
deriving DecidableEq

/-- the four embedding assignments preceding the layer loop (source lines 106-122). -/
def embeddingAssignments : List Assignment :=
  [⟨KHParam.tokenEmb, HFParam.wordEmb, WeightOp.copy⟩,
   ⟨KHParam.posEmb, HFParam.posEmb, WeightOp.copy⟩,
   ⟨KHParam.embLNg, HFParam.embLNw, WeightOp.copy⟩,
   ⟨KHParam.embLNb, HFParam.embLNb, WeightOp.copy⟩]

/-- the body of the per-layer loop (source lines 124-233): the sixteen tensor assignments
performed for transformer layer `i`, in source order, with the exact reshape targets
`(cfg[hidden_dim], cfg[num_heads], -1)`, `(cfg[num_heads], -1)` and
`(cfg[num_heads], -1, cfg[hidden_dim])` taken from `cfg`. -/
def layerAssignments (cfg : KHConfig) (i : Nat) : List Assignment :=
  [⟨KHParam.qK i, HFParam.qW i,
    WeightOp.transposeReshape [RDim.fixed cfg.hidden_dim, RDim.fixed cfg.num_heads, RDim.infer]⟩,
   ⟨KHParam.qB i, HFParam.qB i,
    WeightOp.reshapeTo [RDim.fixed cfg.num_heads, RDim.infer]⟩,
   ⟨KHParam.kK i, HFParam.kW i,
    WeightOp.transposeReshape [RDim.fixed cfg.hidden_dim, RDim.fixed cfg.num_heads, RDim.infer]⟩,
   ⟨KHParam.kB i, HFParam.kB i,
    WeightOp.reshapeTo [RDim.fixed cfg.num_heads, RDim.infer]⟩,
   ⟨KHParam.vK i, HFParam.vW i,
    WeightOp.transposeReshape [RDim.fixed cfg.hidden_dim, RDim.fixed cfg.num_heads, RDim.infer]⟩,
   ⟨KHParam.vB i, HFParam.vB i,
    WeightOp.reshapeTo [RDim.fixed cfg.num_heads, RDim.infer]⟩,
   ⟨KHParam.oK i, HFParam.outW i,
    WeightOp.transposeReshape [RDim.fixed cfg.num_heads, RDim.infer, RDim.fixed cfg.hidden_dim]⟩,
   ⟨KHParam.oB i, HFParam.outB i, WeightOp.copy⟩,
   ⟨KHParam.saLNg i, HFParam.saLNw i, WeightOp.copy⟩,
   ⟨KHParam.saLNb i, HFParam.saLNb i, WeightOp.copy⟩,
   ⟨KHParam.ffiK i, HFParam.ffn1W i, WeightOp.transpose10⟩,
   ⟨KHParam.ffiB i, HFParam.ffn1B i, WeightOp.copy⟩,
   ⟨KHParam.ffoK i, HFParam.ffn2W i, WeightOp.transpose10⟩,
   ⟨KHParam.ffoB i, HFParam.ffn2B i, WeightOp.copy⟩,
   ⟨KHParam.ffLNg i, HFParam.outLNw i, WeightOp.copy⟩,
   ⟨KHParam.ffLNb i, HFParam.outLNb i, WeightOp.copy⟩]

/-- the sixteen per-layer tensor operations, which do not depend on the layer index. -/
def layerOps (cfg : KHConfig) : List WeightOp :=
  [WeightOp.transposeReshape [RDim.fixed cfg.hidden_dim, RDim.fixed cfg.num_heads, RDim.infer],
   WeightOp.reshapeTo [RDim.fixed cfg.num_heads, RDim.infer],
   WeightOp.transposeReshape [RDim.fixed cfg.hidden_dim, RDim.fixed cfg.num_heads, RDim.infer],
   WeightOp.reshapeTo [RDim.fixed cfg.num_heads, RDim.infer],
   WeightOp.transposeReshape [RDim.fixed cfg.hidden_dim, RDim.fixed cfg.num_heads, RDim.infer],
   WeightOp.reshapeTo [RDim.fixed cfg.num_heads, RDim.infer],
   WeightOp.transposeReshape [RDim.fixed cfg.num_heads, RDim.infer, RDim.fixed cfg.hidden_dim],
   WeightOp.copy, WeightOp.copy, WeightOp.copy,
   WeightOp.transpose10, WeightOp.copy,
   WeightOp.transpose10, WeightOp.copy,
   WeightOp.copy, WeightOp.copy]

/-- the full assignment sequence of `convert_checkpoints`: embeddings, then the loop over
the layer indices `0, ..., n-1` where `n` is the KerasHub model layer count. -/
def allAssignments (cfg : KHConfig) (n : Nat) : List Assignment :=
  embeddingAssignments ++ (List.range n).flatMap (layerAssignments cfg)

/-- concrete config of the `distil_bert_base_en_uncased` preset, used for witnesses. -/
def ptBase : PtConfig :=
  ⟨30522, 6, 12, 768, 3072, (1 : Rat) / 10, 512⟩

def cfgBase : KHConfig := buildCfg ptBase

/-! ## Shapes on both sides

`hfShapeOf` is the shape, in terms of the config, of each tensor of the HF DistilBERT
`state_dict`; `khShapeOf` the shape of each KerasHub weight slot.  Both are modelled from
the spec (the transformers and keras-hub libraries are outside `src/`): the spec describes
the script as remapping between "a 6-layer distillation of a transformer encoder" in the
two frameworks, with torch `Linear` storing `[out_features, in_features]` kernels and the
KerasHub attention layers storing per-head `[hidden, heads, head_dim]` projections.
-/

/-- Modelled from the spec: shapes of the HF DistilBERT checkpoint tensors (the
`transformers` model class is not under `src/`); torch `Linear` weights are
`[out_features, in_features]`, embeddings are `[rows, hidden]`, norms and biases are 1-D. -/
def hfShapeOf (cfg : KHConfig) : HFParam → List Nat
  | HFParam.wordEmb => [cfg.vocabulary_size, cfg.hidden_dim]
  | HFParam.posEmb => [cfg.max_sequence_length, cfg.hidden_dim]
  | HFParam.embLNw => [cfg.hidden_dim]
  | HFParam.embLNb => [cfg.hidden_dim]
  | HFParam.qW _ => [cfg.hidden_dim, cfg.hidden_dim]
  | HFParam.qB _ => [cfg.hidden_dim]
  | HFParam.kW _ => [cfg.hidden_dim, cfg.hidden_dim]
  | HFParam.kB _ => [cfg.hidden_dim]
  | HFParam.vW _ => [cfg.hidden_dim, cfg.hidden_dim]
  | HFParam.vB _ => [cfg.hidden_dim]
  | HFParam.outW _ => [cfg.hidden_dim, cfg.hidden_dim]
  | HFParam.outB _ => [cfg.hidden_dim]
  | HFParam.saLNw _ => [cfg.hidden_dim]
  | HFParam.saLNb _ => [cfg.hidden_dim]
  | HFParam.ffn1W _ => [cfg.intermediate_dim, cfg.hidden_dim]
  | HFParam.ffn1B _ => [cfg.intermediate_dim]
  | HFParam.ffn2W _ => [cfg.hidden_dim, cfg.intermediate_dim]
  | HFParam.ffn2B _ => [cfg.hidden_dim]
  | HFParam.outLNw _ => [cfg.hidden_dim]
  | HFParam.outLNb _ => [cfg.hidden_dim]

/-- Modelled from the spec: shapes of the KerasHub `DistilBertBackbone` weight slots (the
keras-hub model class is not under `src/`); the attention projections are per-head
`[hidden, heads, hidden / heads]` kernels with `[heads, hidden / heads]` biases, the
attention output projection is `[heads, hidden / heads, hidden]`, dense kernels are
`[in_features, out_features]`, norms and biases are 1-D. -/
def khShapeOf (cfg : KHConfig) : KHParam → List Nat
  | KHParam.tokenEmb => [cfg.vocabulary_size, cfg.hidden_dim]
  | KHParam.posEmb => [cfg.max_sequence_length, cfg.hidden_dim]
  | KHParam.embLNg => [cfg.hidden_dim]
  | KHParam.embLNb => [cfg.hidden_dim]
  | KHParam.qK _ => [cfg.hidden_dim, cfg.num_heads, cfg.hidden_dim / cfg.num_heads]
  | KHParam.qB _ => [cfg.num_heads, cfg.hidden_dim / cfg.num_heads]
  | KHParam.kK _ => [cfg.hidden_dim, cfg.num_heads, cfg.hidden_dim / cfg.num_heads]
  | KHParam.kB _ => [cfg.num_heads, cfg.hidden_dim / cfg.num_heads]
  | KHParam.vK _ => [cfg.hidden_dim, cfg.num_heads, cfg.hidden_dim / cfg.num_heads]
  | KHParam.vB _ => [cfg.num_heads, cfg.hidden_dim / cfg.num_heads]
  | KHParam.oK _ => [cfg.num_heads, cfg.hidden_dim / cfg.num_heads, cfg.hidden_dim]
  | KHParam.oB _ => [cfg.hidden_dim]
  | KHParam.saLNg _ => [cfg.hidden_dim]
  | KHParam.saLNb _ => [cfg.hidden_dim]
  | KHParam.ffiK _ => [cfg.hidden_dim, cfg.intermediate_dim]
  | KHParam.ffiB _ => [cfg.intermediate_dim]
  | KHParam.ffoK _ => [cfg.intermediate_dim, cfg.hidden_dim]
  | KHParam.ffoB _ => [cfg.hidden_dim]
  | KHParam.ffLNg _ => [cfg.hidden_dim]
  | KHParam.ffLNb _ => [cfg.hidden_dim]

/-! ## Errors, events and the environment -/

/-- the uncaught Python exceptions a run can raise. -/
inductive Err where
  | network (url : String)
  | jsonParse
  | keyError (key : String)
  | missingLayer (path : String)
  | reshapeError (key : String)
  | shapeMismatch (path : String)
  | tokenizerError
  | loadError (which : String)
deriving DecidableEq

structure HttpRequest where
  method : String
  url : String
  headers : List (String × String)
deriving DecidableEq

/-- observable effects of a run, in order. -/
inductive Event where
  | mkdir (path : String)
  | httpGet (req : HttpRequest)
  | fileWrite (path : String)
  | fileRead (path : String)
  | call (name : String)
  | printMsg (s : String)
  | printDiff (value : Rat)
  | printChecksum (file : String) (sum : String)
  | loadKerasModel
  | loadHFModel
  | assign (dst : String)
  | runKerasModel (input : List String)
  | runHFModel (input : List String)
deriving DecidableEq

/-- outcomes supplied by the outside world: network responses per URL, the tokenizer and
model-library load results, the JSON parse of the downloaded config text, the shapes of the
HF `state_dict` tensors, the existing KerasHub weight slots and their shapes, the two model
outputs on the sample sentence (flattened), and the MD5 function over file paths.
`get_md5_checksum` lives in `checkpoint_conversion_utils`, which is not under `src/`;
modelled from the spec as an oracle from file path to checksum string. -/
structure Env where
  dirExists : Bool
  net : String → Except Err String
  tokenizerLoad : Except Err Unit
  loadKeras : Except Err Unit
  loadHF : Except Err Unit
  kerasNumLayers : Nat
  parseJson : String → Except Err PtConfig
  hfWtsShape : HFParam → Option (List Nat)
  khHasSlot : KHParam → Bool
  khSlotShape : KHParam → List Nat
  khOutput : List Rat
  hfOutput : List Rat
  md5 : String → String

/-! ## The embedded script -/

def PRESET_MAP : List (String × String) :=
  [("distil_bert_base_en_uncased", "distilbert-base-uncased"),
   ("distil_bert_base_en_cased", "distilbert-base-cased"),
   ("distil_bert_base_multi_cased", "distilbert-base-multilingual-cased")]

/-- `EXTRACT_DIR.format(preset)` with `EXTRACT_DIR` the format string of source line 22. -/
def extractDir (preset : String) : String := "./" ++ preset

def configUrl (hf : String) : String :=
  "https://huggingface.co/" ++ hf ++ "/raw/main/config.json"

def vocabUrl (hf : String) : String :=
  "https://huggingface.co/" ++ hf ++ "/raw/main/vocab.txt"

/-- CLI flags defined by the script: `flags.DEFINE_string("preset", None, ...)` made
required by `flags.mark_flag_as_required("preset")` in the `__main__` guard. -/
structure FlagDef where
  name : String
  defaultValue : Option String
  required : Bool
deriving DecidableEq

def scriptFlags : List FlagDef := [⟨"preset", none, true⟩]

/-- `download_files` (source lines 30-51): create the extract dir if missing, GET the
config and write it, GET the vocab and write it.  `requests.get(url)` attaches no headers
or credentials; a network failure raises out of `requests.get`.  Returns the config text
(which `convert_checkpoints` later reads back from the file written here). -/
def download_files (env : Env) (preset hf : String) : List Event × Except Err String :=
  let dir := extractDir preset
  let evs0 := Event.printMsg "-> Download original vocab and config." ::
    (if env.dirExists then [] else [Event.mkdir dir])
  match env.net (configUrl hf) with
  | Except.error e => (evs0 ++ [Event.httpGet ⟨"GET", configUrl hf, []⟩], Except.error e)
  | Except.ok c1 =>
    let evs1 := evs0 ++ [Event.httpGet ⟨"GET", configUrl hf, []⟩,
                         Event.fileWrite (dir ++ "/config.json")]
    match env.net (vocabUrl hf) with
    | Except.error e => (evs1 ++ [Event.httpGet ⟨"GET", vocabUrl hf, []⟩], Except.error e)
    | Except.ok _ =>
      (evs1 ++ [Event.httpGet ⟨"GET", vocabUrl hf, []⟩,
                Event.fileWrite (dir ++ "/vocab.txt")], Except.ok c1)

/-- `define_preprocessor` (source lines 54-73): build the two tokenizers from the vocab
file and print its MD5 checksum. -/
def define_preprocessor (env : Env) (preset : String) : List Event × Except Err Unit :=
  let vp := extractDir preset ++ "/vocab.txt"
  match env.tokenizerLoad with
  | Except.error e =>
      ([Event.printMsg "-> Define the tokenizers.", Event.fileRead vp], Except.error e)
  | Except.ok _ =>
      ([Event.printMsg "-> Define the tokenizers.", Event.fileRead vp,
        Event.printChecksum vp (env.md5 vp)], Except.ok ())

/-- one weight assignment: `get_layer` chain (a missing layer raises), `state_dict` key
lookup (a missing key raises), the fixed tensor op (an ill-formed reshape raises), then
`assign`, which raises iff the resulting shape differs from the slot shape. -/
def runAssign (env : Env) (a : Assignment) : Except Err Unit :=
  if env.khHasSlot a.dst then
    match env.hfWtsShape a.src with
    | none => Except.error (Err.keyError (hfKey a.src))
    | some s =>
      match applyOpShape a.op s with
      | none => Except.error (Err.reshapeError (hfKey a.src))
      | some s2 =>
        if s2 = env.khSlotShape a.dst then Except.ok ()
        else Except.error (Err.shapeMismatch (khPath a.dst))
  else Except.error (Err.missingLayer (khPath a.dst))

/-- runs the assignments in order, stopping at the first failure. -/
def runAssignments (env : Env) : List Assignment → List Event × Except Err Unit
  | [] => ([], Except.ok ())
  | a :: rest =>
    match runAssign env a with
    | Except.error e => ([], Except.error e)
    | Except.ok _ =>
      match runAssignments env rest with
      | (evs, r) => (Event.assign (khPath a.dst) :: evs, r)

/-- `convert_checkpoints` (source lines 76-239): read `config.json` back, build the
KerasHub config, run the assignment table over `keras_hub_model.num_layers` layers, and
save the weights to `<preset>.h5`. -/
def convert_checkpoints (env : Env) (preset : String) (cfgContent : String) :
    List Event × Except Err Unit :=
  let cp := extractDir preset ++ "/config.json"
  let base := [Event.printMsg "-> Convert original weights to KerasHub format.",
               Event.fileRead cp]
  match env.parseJson cfgContent with
  | Except.error e => (base, Except.error e)
  | Except.ok pt =>
    let cfg := buildCfg pt
    match runAssignments env (allAssignments cfg env.kerasNumLayers) with
    | (evs, Except.error e) => (base ++ evs, Except.error e)
    | (evs, Except.ok _) =>
        (base ++ evs ++ [Event.fileWrite (preset ++ ".h5")], Except.ok ())

/-- the hardcoded sample sentence of `check_output` (source line 249). -/
def sampleText : List String :=
  ["cricket is awesome, easily the best sport in the world!"]

/-- `np.mean(keras_hub_output - hf_output)`: mean of the elementwise difference of the two
flattened outputs, a single rational. -/
def meanDiff (kh hf : List Rat) : Rat :=
  (List.zipWith (fun x y => x - y) kh hf).sum / (kh.length : Rat)

/-- `check_output` (source lines 242-266): run both models on the sample sentence, print
the mean difference of the outputs, and print the MD5 checksum of `./<preset>.h5`. -/
def check_output (env : Env) (preset : String) : List Event × Except Err Unit :=
  let wp := "./" ++ preset ++ ".h5"
  ([Event.printMsg "-> Check the outputs.",
    Event.runKerasModel sampleText,
    Event.runHFModel sampleText,
    Event.printDiff (meanDiff env.khOutput env.hfOutput),
    Event.printChecksum wp (env.md5 wp)], Except.ok ())

/-- `main` (source lines 269-292): look the preset up in `PRESET_MAP` (a missing key
raises before anything else happens), then call the four script procedures in order, with
the two model-library loads between `define_preprocessor` and `convert_checkpoints`.
There is no handler anywhere: the first error propagates out. -/
def main (env : Env) (preset : String) : List Event × Except Err Unit :=
  match List.lookup preset PRESET_MAP with
  | none => ([], Except.error (Err.keyError preset))
  | some hf =>
    match download_files env preset hf with
    | (t1, Except.error e) => (Event.call "download_files" :: t1, Except.error e)
    | (t1, Except.ok cfgContent) =>
      let pre1 := Event.call "download_files" :: t1
      match define_preprocessor env preset with
      | (t2, Except.error e) =>
          (pre1 ++ Event.call "define_preprocessor" :: t2, Except.error e)
      | (t2, Except.ok _) =>
        let pre2 := pre1 ++ Event.call "define_preprocessor" :: t2
        match env.loadKeras with
        | Except.error e => (pre2 ++ [Event.loadKerasModel], Except.error e)
        | Except.ok _ =>
          let pre3 := pre2 ++ [Event.loadKerasModel]
          match env.loadHF with
          | Except.error e => (pre3 ++ [Event.loadHFModel], Except.error e)
          | Except.ok _ =>
            let pre4 := pre3 ++ [Event.loadHFModel]
            match convert_checkpoints env preset cfgContent with
            | (t3, Except.error e) =>
                (pre4 ++ Event.call "convert_checkpoints" :: t3, Except.error e)
            | (t3, Except.ok _) =>
              let pre5 := pre4 ++ Event.call "convert_checkpoints" :: t3
              match check_output env preset with
              | (t4, _) => (pre5 ++ Event.call "check_output" :: t4, Except.ok ())

/-! ## Trace projections -/

def fileWritePaths (t : List Event) : List String :=
  t.filterMap fun e => match e with | Event.fileWrite p => some p | _ => none

def getReqs (t : List Event) : List HttpRequest :=
  t.filterMap fun e => match e with | Event.httpGet r => some r | _ => none

def getUrls (t : List Event) : List String := (getReqs t).map HttpRequest.url

def callNames (t : List Event) : List String :=
  t.filterMap fun e => match e with | Event.call n => some n | _ => none

def kerasRuns (t : List Event) : List (List String) :=
  t.filterMap fun e => match e with | Event.runKerasModel l => some l | _ => none

def hfRuns (t : List Event) : List (List String) :=
  t.filterMap fun e => match e with | Event.runHFModel l => some l | _ => none

def isOkE {ε α : Type} : Except ε α → Bool
  | Except.ok _ => true
  | Except.error _ => false

/-! ## Concrete environments for witnesses -/

def preset0 : String := "distil_bert_base_en_uncased"

def hf0 : String := "distilbert-base-uncased"

/-- an environment in which every step succeeds and the HF and KerasHub shapes are the
modelled DistilBERT base shapes. -/
def okEnv : Env :=
  ⟨false,
   fun _ => Except.ok "resp",
   Except.ok (),
   Except.ok (),
   Except.ok (),
   6,
   fun _ => Except.ok ptBase,
   fun s => some (hfShapeOf cfgBase s),
   fun _ => true,
   khShapeOf cfgBase,
   [1, 2],
   [1, 2],
   fun _ => "d41d8cd98f00b204e9800998ecf8427e"⟩

/-- an environment whose every network request fails. -/
def failEnv : Env :=
  ⟨false,
   fun u => Except.error (Err.network u),
   Except.ok (),
   Except.ok (),
   Except.ok (),
   6,
   fun _ => Except.ok ptBase,
   fun s => some (hfShapeOf cfgBase s),
   fun _ => true,
   khShapeOf cfgBase,
   [1, 2],
   [1, 2],
   fun _ => "d41d8cd98f00b204e9800998ecf8427e"⟩

/-! ## Element-level semantics of the q/k/v kernel and bias remapping

`hf_wts[...].transpose(1, 0).reshape((hidden, heads, -1))` on the square weight matrix `W`
of a projection: transpose, flatten in row-major order (torch tensors are contiguous
row-major, and `.reshape` reads the logical elements in that order), and re-index as a
3-D tensor whose inferred last dimension is `hidden / heads`.
-/

def transposeMat {α : Type} (W : Nat → Nat → α) : Nat → Nat → α := fun a b => W b a

def flattenRowMajor {α : Type} (cols : Nat) (M : Nat → Nat → α) : Nat → α :=
  fun k => M (k / cols) (k % cols)

def reshape3d {α : Type} (d2 d3 : Nat) (flat : Nat → α) : Nat → Nat → Nat → α :=
  fun i j k => flat (i * (d2 * d3) + j * d3 + k)

def reshape2d {α : Type} (d2 : Nat) (flat : Nat → α) : Nat → Nat → α :=
  fun i j => flat (i * d2 + j)

/-- the query/key/value kernel written into the KerasHub model, as a function of the
source `[hidden, hidden]` weight matrix (source lines 127-132). -/
def qkvKernel {α : Type} (hidden heads : Nat) (W : Nat → Nat → α) : Nat → Nat → Nat → α :=
  reshape3d heads (hidden / heads) (flattenRowMajor hidden (transposeMat W))

/-- the query/key/value bias written into the KerasHub model, as a function of the source
`[hidden]` bias vector (source lines 135-139). -/
def qkvBias {α : Type} (hidden heads : Nat) (b : Nat → α) : Nat → Nat → α :=
  reshape2d (hidden / heads) b

/-- sample weight matrix for the claim-10 witness. -/
def wEx : Nat → Nat → Rat := fun a b => ((10 * a + b : Nat) : Rat)

/-- sample bias vector for the claim-10 witness. -/
def bEx : Nat → Rat := fun a => ((a : Nat) : Rat)

end DistilBertConvert

namespace DistilBertConvert

/-! ## Helper lemmas -/

lemma resolveReshape_kernel_qkv (H nh : Nat) (hH : 0 < H) (hnh : 0 < nh)
    (hdvd : nh ∣ H) :
    resolveReshape [RDim.fixed H, RDim.fixed nh, RDim.infer] (H * H) =
      some [H, nh, H / nh] := by
  have hc : inferCount [RDim.fixed H, RDim.fixed nh, RDim.infer] = 1 := rfl
  have hk : knownProd [RDim.fixed H, RDim.fixed nh, RDim.infer] = H * nh := by
    simp [knownProd]
  have hne : H * nh ≠ 0 := Nat.mul_ne_zero hH.ne' hnh.ne'
  have hdd : H * nh ∣ H * H := Nat.mul_dvd_mul_left H hdvd
  have hdiv : H * H / (H * nh) = H / nh := Nat.mul_div_mul_left H nh hH
  simp only [resolveReshape, hc, hk]
  rw [if_pos trivial, if_pos (And.intro hne hdd)]
  simp [fillInfer, hdiv]

lemma resolveReshape_bias_qkv (H nh : Nat) (hnh : 0 < nh) (hdvd : nh ∣ H) :
    resolveReshape [RDim.fixed nh, RDim.infer] H = some [nh, H / nh] := by
  have hc : inferCount [RDim.fixed nh, RDim.infer] = 1 := rfl
  have hk : knownProd [RDim.fixed nh, RDim.infer] = nh := by simp [knownProd]
  simp only [resolveReshape, hc, hk]
  rw [if_pos trivial, if_pos (And.intro hnh.ne' hdvd)]
  simp [fillInfer]

lemma resolveReshape_kernel_out (H nh : Nat) (hH : 0 < H) (hnh : 0 < nh)
    (hdvd : nh ∣ H) :
    resolveReshape [RDim.fixed nh, RDim.infer, RDim.fixed H] (H * H) =
      some [nh, H / nh, H] := by
  have hc : inferCount [RDim.fixed nh, RDim.infer, RDim.fixed H] = 1 := rfl
  have hk : knownProd [RDim.fixed nh, RDim.infer, RDim.fixed H] = nh * H := by
    simp [knownProd]
  have hne : nh * H ≠ 0 := Nat.mul_ne_zero hnh.ne' hH.ne'
  have hdd : nh * H ∣ H * H := by
    rw [Nat.mul_comm nh H]
    exact Nat.mul_dvd_mul_left H hdvd
  have hdiv : H * H / (nh * H) = H / nh := by
    rw [Nat.mul_comm nh H]
    exact Nat.mul_div_mul_left H nh hH
  simp only [resolveReshape, hc, hk]
  rw [if_pos trivial, if_pos (And.intro hne hdd)]
  simp [fillInfer, hdiv]

/-- core shape fact behind claim 8: for every assignment of the table, the fixed
transpose/reshape applied to the modelled HF source shape yields exactly the modelled
KerasHub slot shape, provided `num_heads` divides `hidden_dim` and both are positive. -/
lemma assignment_shape_ok (cfg : KHConfig)
    (hdvd : cfg.num_heads ∣ cfg.hidden_dim)
    (hnh : 0 < cfg.num_heads) (hH : 0 < cfg.hidden_dim) (n : Nat) :
    ∀ a ∈ allAssignments cfg n,
      applyOpShape a.op (hfShapeOf cfg a.src) = some (khShapeOf cfg a.dst) := by
  intro a ha
  rw [allAssignments, List.mem_append] at ha
  have hqkv : applyOpShape
      (WeightOp.transposeReshape
        [RDim.fixed cfg.hidden_dim, RDim.fixed cfg.num_heads, RDim.infer])
      [cfg.hidden_dim, cfg.hidden_dim] =
      some [cfg.hidden_dim, cfg.num_heads, cfg.hidden_dim / cfg.num_heads] := by
    simp only [applyOpShape, transposeShape, Option.some_bind, List.prod_cons,
      List.prod_nil, Nat.mul_one]
    exact resolveReshape_kernel_qkv cfg.hidden_dim cfg.num_heads hH hnh hdvd
  have hbias : applyOpShape (WeightOp.reshapeTo [RDim.fixed cfg.num_heads, RDim.infer])
      [cfg.hidden_dim] =
      some [cfg.num_heads, cfg.hidden_dim / cfg.num_heads] := by
    simp only [applyOpShape, List.prod_cons, List.prod_nil, Nat.mul_one]
    exact resolveReshape_bias_qkv cfg.hidden_dim cfg.num_heads hnh hdvd
  have hout : applyOpShape
      (WeightOp.transposeReshape
        [RDim.fixed cfg.num_heads, RDim.infer, RDim.fixed cfg.hidden_dim])
      [cfg.hidden_dim, cfg.hidden_dim] =
      some [cfg.num_heads, cfg.hidden_dim / cfg.num_heads, cfg.hidden_dim] := by
    simp only [applyOpShape, transposeShape, Option.some_bind, List.prod_cons,
      List.prod_nil, Nat.mul_one]
    exact resolveReshape_kernel_out cfg.hidden_dim cfg.num_heads hH hnh hdvd
  rcases ha with ha | ha
  · simp only [embeddingAssignments, List.mem_cons, List.not_mem_nil, or_false] at ha
    rcases ha with rfl | rfl | rfl | rfl <;>
      simp [applyOpShape, hfShapeOf, khShapeOf]
  · rcases List.mem_flatMap.mp ha with ⟨i, _, hmem⟩
    simp only [layerAssignments, List.mem_cons, List.not_mem_nil, or_false] at hmem
    rcases hmem with rfl | rfl | rfl | rfl | rfl | rfl | rfl | rfl | rfl | rfl |
      rfl | rfl | rfl | rfl | rfl | rfl <;>
      simp only [hfShapeOf, khShapeOf] <;>
      first
        | exact hqkv
        | exact hbias
        | exact hout
        | simp [applyOpShape, transposeShape]

end DistilBertConvert

namespace DistilBertConvert

/-! ## Claims -/

/-- C1 counterexample: the per-layer remapping of layer 0 under the base config copies
sixteen weight tensors, not six as claimed. -/
theorem claim1_counterexample : ¬ (layerAssignments cfgBase 0).length = 6 := by
  decide

/-- C1 (amended): for every config and every transformer layer index, the weight-remapping
step copies exactly sixteen weight tensors — kernel and bias of each of the
query/key/value/output projections and of the two feed-forward layers, gamma and beta of
the two layer norms — from the HF naming scheme into the KerasHub naming scheme, each
under a fixed transpose/reshape operation (the same sixteen operations for every layer),
with the sixteen source tensors and the sixteen destination slots pairwise distinct. -/
theorem claim1_amended_sixteen_tensors (cfg : KHConfig) (i : Nat) :
    (layerAssignments cfg i).length = 16
  ∧ (layerAssignments cfg i).map Assignment.op = layerOps cfg
  ∧ ((layerAssignments cfg i).map Assignment.src).Nodup
  ∧ ((layerAssignments cfg i).map Assignment.dst).Nodup
  ∧ ∀ n : Nat, (allAssignments cfg n).length = 4 + 16 * n := by
  refine ⟨rfl, rfl, by simp [layerAssignments], by simp [layerAssignments], ?_⟩
  intro n
  have hloop : ∀ m : Nat, ((List.range m).flatMap (layerAssignments cfg)).length
      = 16 * m := by
    intro m
    induction m with
    | zero => rfl
    | succ k ih =>
      rw [List.range_succ, List.flatMap_append, List.length_append, ih]
      simp [layerAssignments, Nat.mul_succ]
  rw [allAssignments, List.length_append, hloop]
  rfl

/-- C8: under the hypothesis that the source tensors have the DistilBERT shapes declared
in the config — in particular that `hidden_dim` is divisible by `num_heads`, so the
reshape with a `-1` dimension is well defined — and that the KerasHub model exposes every
slot of the table with the modelled backbone shapes, every weight assignment of the
remapping succeeds: the shape-mismatch error branch (and every other error branch of an
assignment) is unreachable. -/
theorem claim8_shapes_match (cfg : KHConfig)
    (hdvd : cfg.num_heads ∣ cfg.hidden_dim)
    (hnh : 0 < cfg.num_heads) (hH : 0 < cfg.hidden_dim) (n : Nat) (env : Env)
    (hw : env.hfWtsShape = fun s => some (hfShapeOf cfg s))
    (hs : env.khHasSlot = fun _ => true)
    (hk : env.khSlotShape = khShapeOf cfg) :
    ∀ a ∈ allAssignments cfg n, runAssign env a = Except.ok () := by
  intro a ha
  have hshape := assignment_shape_ok cfg hdvd hnh hH n a ha
  simp [runAssign, hw, hs, hk, hshape]

/-- C8 witness: the very first assignment of the table under the base config and an
environment realising the modelled shapes. -/
theorem claim8_witness :
    runAssign okEnv ⟨KHParam.tokenEmb, HFParam.wordEmb, WeightOp.copy⟩ = Except.ok () :=
  claim8_shapes_match cfgBase (by decide) (by decide) (by decide) 6 okEnv rfl rfl rfl
    ⟨KHParam.tokenEmb, HFParam.wordEmb, WeightOp.copy⟩ (by decide)

/-- every event emitted by the assignment loop is a weight assignment. -/
lemma runAssignments_fst_assign (env : Env) :
    ∀ l, ∀ e ∈ (runAssignments env l).1, ∃ d, e = Event.assign d := by
  intro l
  induction l with
  | nil => intro e he; simp [runAssignments] at he
  | cons a rest ih =>
    intro e he
    rw [runAssignments] at he
    cases hA : runAssign env a with
    | error err => rw [hA] at he; simp at he
    | ok u =>
      rw [hA] at he
      rcases hr : runAssignments env rest with ⟨evs, r⟩
      rw [hr] at he
      simp only [List.mem_cons] at he
      rcases he with rfl | he
      · exact ⟨_, rfl⟩
      · exact ih e (by rw [hr]; exact he)

lemma filterMap_of_assign {β : Type} (f : Event → Option β)
    (hf : ∀ d, f (Event.assign d) = none) :
    ∀ t : List Event, (∀ e ∈ t, ∃ d, e = Event.assign d) → t.filterMap f = [] := by
  intro t
  induction t with
  | nil => intro _; rfl
  | cons e rest ih =>
    intro ht
    rcases ht e (List.mem_cons_self e rest) with ⟨d, rfl⟩
    rw [List.filterMap_cons, hf]
    exact ih fun x hx => ht x (List.mem_cons_of_mem _ hx)

lemma fileWritePaths_runAssignments (env : Env) (l : List Assignment) :
    fileWritePaths (runAssignments env l).1 = [] :=
  filterMap_of_assign _ (fun _ => rfl) _ (runAssignments_fst_assign env l)

lemma getReqs_runAssignments (env : Env) (l : List Assignment) :
    getReqs (runAssignments env l).1 = [] :=
  filterMap_of_assign _ (fun _ => rfl) _ (runAssignments_fst_assign env l)

lemma callNames_runAssignments (env : Env) (l : List Assignment) :
    callNames (runAssignments env l).1 = [] :=
  filterMap_of_assign _ (fun _ => rfl) _ (runAssignments_fst_assign env l)

/-- the HTTP requests issued by `download_files`: the config GET always, and the vocab GET
whenever the config GET did not raise; each at most once. -/
lemma getReqs_download (env : Env) (p hf : String) :
    getReqs (download_files env p hf).1 =
      if isOkE (env.net (configUrl hf)) = true then
        [⟨"GET", configUrl hf, []⟩, ⟨"GET", vocabUrl hf, []⟩]
      else [⟨"GET", configUrl hf, []⟩] := by
  cases hn1 : env.net (configUrl hf) with
  | error e =>
    cases hb : env.dirExists <;>
      simp [download_files, hn1, hb, getReqs, isOkE]
  | ok c1 =>
    cases hn2 : env.net (vocabUrl hf) with
    | error e =>
        cases hb : env.dirExists <;>
          simp [download_files, hn1, hn2, hb, getReqs, isOkE]
    | ok c2 =>
        cases hb : env.dirExists <;>
          simp [download_files, hn1, hn2, hb, getReqs, isOkE]

/-- C9: a `--preset` value outside `PRESET_MAP` fails at the very first statement of
`main` with a lookup error, before any event is emitted: no network request, no directory
creation, no file write — the filesystem is untouched. -/
theorem claim9_bad_preset (env : Env) (p : String)
    (h : List.lookup p PRESET_MAP = none) :
    main env p = ([], Except.error (Err.keyError p)) := by
  simp [main, h]

/-- C9 witness: an unknown preset name. -/
theorem claim9_witness :
    main okEnv "distil_bert" = ([], Except.error (Err.keyError "distil_bert")) :=
  claim9_bad_preset okEnv "distil_bert" (by decide)

/-- C4: the CLI surface is exactly one flag, `--preset`, which is required; the preset
table has exactly the three fixed entries; and the only exit contract of a run is a normal
result or a propagated exception. -/
theorem claim4_cli_surface :
    scriptFlags.map FlagDef.name = ["preset"]
  ∧ (∀ f ∈ scriptFlags, f.required = true)
  ∧ scriptFlags.length = 1
  ∧ PRESET_MAP.map Prod.fst =
      ["distil_bert_base_en_uncased", "distil_bert_base_en_cased",
       "distil_bert_base_multi_cased"]
  ∧ ∀ env p, (main env p).2 = Except.ok () ∨ ∃ e, (main env p).2 = Except.error e := by
  refine ⟨by decide, by decide, by decide, by decide, ?_⟩
  intro env p
  cases h : (main env p).2 with
  | ok u => cases u; exact Or.inl rfl
  | error e => exact Or.inr ⟨e, rfl⟩

/-- C4 witness: the single flag of the script is required. -/
theorem claim4_witness : FlagDef.required ⟨"preset", none, true⟩ = true :=
  claim4_cli_surface.2.1 ⟨"preset", none, true⟩ (by decide)

/-- C6: every request issued by `download_files` is an unauthenticated GET (no headers, no
credentials) against the fixed hub URL pattern of the preset, and on success the requests
are exactly the config GET then the vocab GET. -/
theorem claim6_download_requests (env : Env) (p hf : String) :
    (∀ r ∈ getReqs (download_files env p hf).1,
       r.method = "GET" ∧ r.headers = [] ∧ (r.url = configUrl hf ∨ r.url = vocabUrl hf))
  ∧ (isOkE (download_files env p hf).2 = true →
       getReqs (download_files env p hf).1 =
         [⟨"GET", configUrl hf, []⟩, ⟨"GET", vocabUrl hf, []⟩]) := by
  constructor
  · intro r hr
    rw [getReqs_download] at hr
    rcases hcond : isOkE (env.net (configUrl hf)) with _ | _ <;>
      rw [hcond] at hr <;> simp at hr
    · rw [hr]
      exact ⟨rfl, rfl, Or.inl rfl⟩
    · rcases hr with rfl | rfl
      · exact ⟨rfl, rfl, Or.inl rfl⟩
      · exact ⟨rfl, rfl, Or.inr rfl⟩
  · intro h
    rw [getReqs_download]
    cases hn1 : env.net (configUrl hf) with
    | error e => simp [download_files, hn1, isOkE] at h
    | ok c => simp [isOkE]

/-- C6 witness: in the all-success environment for the base preset, the two requests. -/
theorem claim6_witness :
    getReqs (download_files okEnv preset0 hf0).1 =
      [⟨"GET", configUrl hf0, []⟩, ⟨"GET", vocabUrl hf0, []⟩] :=
  (claim6_download_requests okEnv preset0 hf0).2 (by rfl)

/-- C7: `check_output` runs each of the two models exactly once, both on the single
hardcoded sample sentence, prints the mean of the elementwise difference of the two
outputs — one number — and prints the MD5 checksum of the written weights file
`./<preset>.h5`. -/
theorem claim7_check_output_prints (env : Env) (p : String) :
    sampleText = ["cricket is awesome, easily the best sport in the world!"]
  ∧ kerasRuns (check_output env p).1 = [sampleText]
  ∧ hfRuns (check_output env p).1 = [sampleText]
  ∧ Event.printDiff (meanDiff env.khOutput env.hfOutput) ∈ (check_output env p).1
  ∧ Event.printChecksum ("./" ++ p ++ ".h5") (env.md5 ("./" ++ p ++ ".h5"))
      ∈ (check_output env p).1 := by
  refine ⟨rfl, rfl, rfl, ?_, ?_⟩ <;> simp [check_output]

/-- C10: elementwise, the query/key/value kernel written into the destination model is the
source matrix transposed then reshaped row-major to `(hidden, heads, hidden / heads)`:
`kernel[h, n, d] = W[n * (hidden / heads) + d, h]`; the corresponding bias is the source
vector reshaped to `(heads, hidden / heads)`: `bias[n, d] = b[n * (hidden / heads) + d]`;
and for every layer index the first six table entries (q/k/v kernel and bias) carry
exactly these transpose/reshape operations. -/
theorem claim10_qkv_semantics (hidden heads : Nat) (W : Nat → Nat → Rat) (b : Nat → Rat)
    (h n d : Nat) (hdvd : heads ∣ hidden)
    (hh : h < hidden) (hn : n < heads) (hd : d < hidden / heads) :
    qkvKernel hidden heads W h n d = W (n * (hidden / heads) + d) h
  ∧ qkvBias hidden heads b n d = b (n * (hidden / heads) + d)
  ∧ ∀ (cfg : KHConfig) (i : Nat),
      ((layerAssignments cfg i).map Assignment.op).take 6 =
        [WeightOp.transposeReshape
           [RDim.fixed cfg.hidden_dim, RDim.fixed cfg.num_heads, RDim.infer],
         WeightOp.reshapeTo [RDim.fixed cfg.num_heads, RDim.infer],
         WeightOp.transposeReshape
           [RDim.fixed cfg.hidden_dim, RDim.fixed cfg.num_heads, RDim.infer],
         WeightOp.reshapeTo [RDim.fixed cfg.num_heads, RDim.infer],
         WeightOp.transposeReshape
           [RDim.fixed cfg.hidden_dim, RDim.fixed cfg.num_heads, RDim.infer],
         WeightOp.reshapeTo [RDim.fixed cfg.num_heads, RDim.infer]] := by
  refine ⟨?_, rfl, fun cfg i => rfl⟩
  have hpos : 0 < hidden := Nat.lt_of_le_of_lt (Nat.zero_le h) hh
  have hmul : heads * (hidden / heads) = hidden := Nat.mul_div_cancel' hdvd
  have hlt : n * (hidden / heads) + d < hidden := by
    calc n * (hidden / heads) + d
        < n * (hidden / heads) + (hidden / heads) := by omega
      _ = (n + 1) * (hidden / heads) := by ring
      _ ≤ heads * (hidden / heads) := Nat.mul_le_mul_right _ hn
      _ = hidden := hmul
  have hk : h * (heads * (hidden / heads)) + n * (hidden / heads) + d
      = (n * (hidden / heads) + d) + h * hidden := by
    rw [hmul]; ring
  have h1 : ((n * (hidden / heads) + d) + h * hidden) / hidden = h := by
    rw [Nat.add_mul_div_right _ _ hpos, Nat.div_eq_of_lt hlt, Nat.zero_add]
  have h2 : ((n * (hidden / heads) + d) + h * hidden) % hidden
      = n * (hidden / heads) + d := by
    rw [Nat.add_mul_mod_self_right, Nat.mod_eq_of_lt hlt]
  simp only [qkvKernel, reshape3d, flattenRowMajor, transposeMat, hk, h1, h2]

/-- C10 witness: a concrete 4-by-4 weight matrix with two heads. -/
theorem claim10_witness :
    qkvKernel 4 2 wEx 3 1 1 = wEx 3 3 ∧ qkvBias 4 2 bEx 1 1 = bEx 3 := by
  have h := claim10_qkv_semantics 4 2 wEx bEx 3 1 1 (by decide) (by decide) (by decide)
    (by decide)
  exact ⟨h.1, h.2.1⟩

/-! ## Projection distribution lemmas -/

lemma fwp_append (s t : List Event) :
    fileWritePaths (s ++ t) = fileWritePaths s ++ fileWritePaths t := by
  simp [fileWritePaths]

lemma fwp_call (n : String) (t : List Event) :
    fileWritePaths (Event.call n :: t) = fileWritePaths t := rfl

lemma fwp_loadK (t : List Event) :
    fileWritePaths (Event.loadKerasModel :: t) = fileWritePaths t := rfl

lemma fwp_loadH (t : List Event) :
    fileWritePaths (Event.loadHFModel :: t) = fileWritePaths t := rfl

lemma cn_append (s t : List Event) :
    callNames (s ++ t) = callNames s ++ callNames t := by
  simp [callNames]

lemma cn_call (n : String) (t : List Event) :
    callNames (Event.call n :: t) = n :: callNames t := rfl

lemma cn_loadK (t : List Event) :
    callNames (Event.loadKerasModel :: t) = callNames t := rfl

lemma cn_loadH (t : List Event) :
    callNames (Event.loadHFModel :: t) = callNames t := rfl

lemma fwp_nil : fileWritePaths [] = [] := rfl

lemma cn_nil : callNames [] = [] := rfl

lemma gr_nil : getReqs [] = [] := rfl

lemma gr_append (s t : List Event) :
    getReqs (s ++ t) = getReqs s ++ getReqs t := by
  simp [getReqs]

lemma gr_call (n : String) (t : List Event) :
    getReqs (Event.call n :: t) = getReqs t := rfl

lemma gr_loadK (t : List Event) :
    getReqs (Event.loadKerasModel :: t) = getReqs t := rfl

lemma gr_loadH (t : List Event) :
    getReqs (Event.loadHFModel :: t) = getReqs t := rfl

/-! ## Per-procedure trace facts -/

/-- on a successful download the files written are exactly the config and the vocab, and
the download trace contains no procedure-call events. -/
lemma download_ok_parts (env : Env) (p hf : String)
    (h : isOkE (download_files env p hf).2 = true) :
    fileWritePaths (download_files env p hf).1 =
      [extractDir p ++ "/config.json", extractDir p ++ "/vocab.txt"]
  ∧ callNames (download_files env p hf).1 = [] := by
  cases hn1 : env.net (configUrl hf) with
  | error e => simp [download_files, hn1, isOkE] at h
  | ok c1 =>
    cases hn2 : env.net (vocabUrl hf) with
    | error e => simp [download_files, hn1, hn2, isOkE] at h
    | ok c2 =>
      cases hdir : env.dirExists <;>
        exact ⟨by simp [download_files, hn1, hn2, hdir, fileWritePaths],
               by simp [download_files, hn1, hn2, hdir, callNames]⟩

lemma dp_parts (env : Env) (p : String) :
    fileWritePaths (define_preprocessor env p).1 = []
  ∧ callNames (define_preprocessor env p).1 = []
  ∧ getReqs (define_preprocessor env p).1 = [] := by
  cases htk : env.tokenizerLoad <;>
    exact ⟨by simp [define_preprocessor, htk, fileWritePaths],
           by simp [define_preprocessor, htk, callNames],
           by simp [define_preprocessor, htk, getReqs]⟩

/-- on a successful conversion the only file written is the weights file `<preset>.h5`,
and the conversion trace contains no procedure-call and no request events. -/
lemma cc_ok_parts (env : Env) (p c : String)
    (h : isOkE (convert_checkpoints env p c).2 = true) :
    fileWritePaths (convert_checkpoints env p c).1 = [p ++ ".h5"]
  ∧ callNames (convert_checkpoints env p c).1 = [] := by
  cases hpj : env.parseJson c with
  | error e => simp [convert_checkpoints, hpj, isOkE] at h
  | ok pt =>
    rcases hra : runAssignments env (allAssignments (buildCfg pt) env.kerasNumLayers)
      with ⟨evs, r⟩
    have hw := fileWritePaths_runAssignments env (allAssignments (buildCfg pt) env.kerasNumLayers)
    have hc := callNames_runAssignments env (allAssignments (buildCfg pt) env.kerasNumLayers)
    rw [hra] at hw hc
    cases r with
    | error e => simp [convert_checkpoints, hpj, hra, isOkE] at h
    | ok u =>
      have hw2 : List.filterMap
          (fun e => match e with | Event.fileWrite q => some q | _ => none) evs = [] := hw
      have hc2 : List.filterMap
          (fun e => match e with | Event.call n => some n | _ => none) evs = [] := hc
      exact ⟨by simp [convert_checkpoints, hpj, hra, fileWritePaths, hw2],
             by simp [convert_checkpoints, hpj, hra, callNames, hc2]⟩

lemma cc_getReqs (env : Env) (p c : String) :
    getReqs (convert_checkpoints env p c).1 = [] := by
  cases hpj : env.parseJson c with
  | error e => simp [convert_checkpoints, hpj, getReqs]
  | ok pt =>
    rcases hra : runAssignments env (allAssignments (buildCfg pt) env.kerasNumLayers)
      with ⟨evs, r⟩
    have hg := getReqs_runAssignments env (allAssignments (buildCfg pt) env.kerasNumLayers)
    rw [hra] at hg
    have hg2 : List.filterMap
        (fun e => match e with | Event.httpGet r => some r | _ => none) evs = [] := hg
    cases r with
    | error e => simp [convert_checkpoints, hpj, hra, getReqs, hg2]
    | ok u => simp [convert_checkpoints, hpj, hra, getReqs, hg2]

lemma co_parts (env : Env) (p : String) :
    fileWritePaths (check_output env p).1 = []
  ∧ callNames (check_output env p).1 = []
  ∧ getReqs (check_output env p).1 = [] :=
  ⟨rfl, rfl, rfl⟩

/-- the requests of a whole run are exactly the requests of its download step: no other
part of `main` performs any HTTP request. -/
lemma getUrls_main (env : Env) (p hf : String)
    (hlk : List.lookup p PRESET_MAP = some hf) :
    getUrls (main env p).1 = getUrls (download_files env p hf).1 := by
  rcases hdf : download_files env p hf with ⟨t1, r1⟩
  have e2 := (dp_parts env p).2.2
  have e4 := (co_parts env p).2.2
  cases r1 with
  | error e => simp [main, hlk, hdf, getUrls, gr_call]
  | ok c1 =>
    rcases hdp : define_preprocessor env p with ⟨t2, r2⟩
    rw [hdp] at e2
    cases r2 with
    | error e =>
      simp [main, hlk, hdf, hdp, getUrls, gr_append, gr_call, e2]
    | ok u =>
      cases u
      cases hk1 : env.loadKeras with
      | error e =>
        simp [main, hlk, hdf, hdp, hk1, getUrls, gr_append, gr_call, gr_loadK, gr_nil, e2]
      | ok u2 =>
        cases u2
        cases hk2 : env.loadHF with
        | error e =>
          simp [main, hlk, hdf, hdp, hk1, hk2, getUrls, gr_append, gr_call,
                gr_loadK, gr_loadH, gr_nil, e2]
        | ok u3 =>
          cases u3
          have e3 := cc_getReqs env p c1
          rcases hcc : convert_checkpoints env p c1 with ⟨t3, r3⟩
          rw [hcc] at e3
          rcases hco : check_output env p with ⟨t4, r4⟩
          rw [hco] at e4
          cases r3 with
          | error e =>
            simp [main, hlk, hdf, hdp, hk1, hk2, hcc, getUrls, gr_append, gr_call,
                  gr_loadK, gr_loadH, gr_nil, e2, e3]
          | ok u4 =>
            cases u4
            simp [main, hlk, hdf, hdp, hk1, hk2, hcc, hco, getUrls, gr_append,
                  gr_call, gr_loadK, gr_loadH, gr_nil, e2, e3, e4]

/-- C3: a successful run writes exactly `./<preset>/config.json`, `./<preset>/vocab.txt`
and `<preset>.h5` (the latter in the working directory), in that order, and nothing
else. -/
theorem claim3_files_written (env : Env) (p : String)
    (h : isOkE (main env p).2 = true) :
    fileWritePaths (main env p).1 =
      [extractDir p ++ "/config.json", extractDir p ++ "/vocab.txt", p ++ ".h5"] := by
  cases hlk : List.lookup p PRESET_MAP with
  | none => simp [main, hlk, isOkE] at h
  | some hf =>
    rcases hdf : download_files env p hf with ⟨t1, r1⟩
    cases r1 with
    | error e => simp [main, hlk, hdf, isOkE] at h
    | ok c1 =>
      rcases hdp : define_preprocessor env p with ⟨t2, r2⟩
      cases r2 with
      | error e => simp [main, hlk, hdf, hdp, isOkE] at h
      | ok u =>
        cases u
        cases hk1 : env.loadKeras with
        | error e => simp [main, hlk, hdf, hdp, hk1, isOkE] at h
        | ok u2 =>
          cases u2
          cases hk2 : env.loadHF with
          | error e => simp [main, hlk, hdf, hdp, hk1, hk2, isOkE] at h
          | ok u3 =>
            cases u3
            rcases hcc : convert_checkpoints env p c1 with ⟨t3, r3⟩
            cases r3 with
            | error e => simp [main, hlk, hdf, hdp, hk1, hk2, hcc, isOkE] at h
            | ok u4 =>
              cases u4
              have d1 := download_ok_parts env p hf (by rw [hdf]; rfl)
              rw [hdf] at d1
              have d2 := (dp_parts env p).1
              rw [hdp] at d2
              have d3 := cc_ok_parts env p c1 (by rw [hcc]; rfl)
              rw [hcc] at d3
              have d4 := (co_parts env p).1
              rcases hco : check_output env p with ⟨t4, r4⟩
              rw [hco] at d4
              simp [main, hlk, hdf, hdp, hk1, hk2, hcc, hco, fwp_append, fwp_call,
                    fwp_loadK, fwp_loadH, fwp_nil, d1.1, d2, d3.1, d4]

/-- C3 witness: the all-success environment on the base preset. -/
theorem claim3_witness :
    fileWritePaths (main okEnv preset0).1 =
      [extractDir preset0 ++ "/config.json", extractDir preset0 ++ "/vocab.txt",
       preset0 ++ ".h5"] :=
  claim3_files_written okEnv preset0 (by rfl)

/-- C5: a successful run invokes the four procedures the script defines exactly once
each, in the fixed order download, tokenizer/preprocessor setup, weight remapping,
numerical output check — none skipped, repeated or reordered (the two model-library
loads happen inline in `main` between the second and third procedure and appear in the
trace as load events, not procedure calls). -/
theorem claim5_four_steps (env : Env) (p : String)
    (h : isOkE (main env p).2 = true) :
    callNames (main env p).1 =
      ["download_files", "define_preprocessor", "convert_checkpoints",
       "check_output"] := by
  cases hlk : List.lookup p PRESET_MAP with
  | none => simp [main, hlk, isOkE] at h
  | some hf =>
    rcases hdf : download_files env p hf with ⟨t1, r1⟩
    cases r1 with
    | error e => simp [main, hlk, hdf, isOkE] at h
    | ok c1 =>
      rcases hdp : define_preprocessor env p with ⟨t2, r2⟩
      cases r2 with
      | error e => simp [main, hlk, hdf, hdp, isOkE] at h
      | ok u =>
        cases u
        cases hk1 : env.loadKeras with
        | error e => simp [main, hlk, hdf, hdp, hk1, isOkE] at h
        | ok u2 =>
          cases u2
          cases hk2 : env.loadHF with
          | error e => simp [main, hlk, hdf, hdp, hk1, hk2, isOkE] at h
          | ok u3 =>
            cases u3
            rcases hcc : convert_checkpoints env p c1 with ⟨t3, r3⟩
            cases r3 with
            | error e => simp [main, hlk, hdf, hdp, hk1, hk2, hcc, isOkE] at h
            | ok u4 =>
              cases u4
              have d1 := download_ok_parts env p hf (by rw [hdf]; rfl)
              rw [hdf] at d1
              have d2 := (dp_parts env p).2.1
              rw [hdp] at d2
              have d3 := cc_ok_parts env p c1 (by rw [hcc]; rfl)
              rw [hcc] at d3
              have d4 := (co_parts env p).2.1
              rcases hco : check_output env p with ⟨t4, r4⟩
              rw [hco] at d4
              simp [main, hlk, hdf, hdp, hk1, hk2, hcc, hco, cn_append, cn_call,
                    cn_loadK, cn_loadH, cn_nil, d1.2, d2, d3.2, d4]

/-- C5 witness: the all-success environment on the base preset. -/
theorem claim5_witness :
    callNames (main okEnv preset0).1 =
      ["download_files", "define_preprocessor", "convert_checkpoints",
       "check_output"] :=
  claim5_four_steps okEnv preset0 (by rfl)

/-- C2: there is no retry and no recovery anywhere in a run.  Each enumerated error —
network failure on either download, JSON parse failure on the config, tokenizer failure,
and any failing weight assignment (shape mismatch, missing state-dict key, missing layer)
— propagates unchanged out of `main` as the run result; and no URL is ever requested
twice: the requests of the whole run are exactly the config GET, followed by the vocab
GET unless the config GET raised. -/
theorem claim2_errors_propagate (env : Env) (p hf : String) (e : Err)
    (hlk : List.lookup p PRESET_MAP = some hf) :
    (env.net (configUrl hf) = Except.error e → (main env p).2 = Except.error e)
  ∧ (∀ c1, env.net (configUrl hf) = Except.ok c1 →
      env.net (vocabUrl hf) = Except.error e → (main env p).2 = Except.error e)
  ∧ (∀ c1 c2, env.net (configUrl hf) = Except.ok c1 →
      env.net (vocabUrl hf) = Except.ok c2 →
      env.tokenizerLoad = Except.error e → (main env p).2 = Except.error e)
  ∧ (∀ c1 c2, env.net (configUrl hf) = Except.ok c1 →
      env.net (vocabUrl hf) = Except.ok c2 →
      env.tokenizerLoad = Except.ok () → env.loadKeras = Except.ok () →
      env.loadHF = Except.ok () →
      env.parseJson c1 = Except.error e → (main env p).2 = Except.error e)
  ∧ (∀ c1 c2 pt evs, env.net (configUrl hf) = Except.ok c1 →
      env.net (vocabUrl hf) = Except.ok c2 →
      env.tokenizerLoad = Except.ok () → env.loadKeras = Except.ok () →
      env.loadHF = Except.ok () →
      env.parseJson c1 = Except.ok pt →
      runAssignments env (allAssignments (buildCfg pt) env.kerasNumLayers)
        = (evs, Except.error e) →
      (main env p).2 = Except.error e)
  ∧ (getUrls (main env p).1 = [configUrl hf]
     ∨ getUrls (main env p).1 = [configUrl hf, vocabUrl hf]) := by
  refine ⟨?_, ?_, ?_, ?_, ?_, ?_⟩
  · intro hn1
    simp [main, hlk, download_files, hn1]
  · intro c1 hn1 hn2
    simp [main, hlk, download_files, hn1, hn2]
  · intro c1 c2 hn1 hn2 htk
    simp [main, hlk, download_files, hn1, hn2, define_preprocessor, htk]
  · intro c1 c2 hn1 hn2 htk hl1 hl2 hpj
    simp [main, hlk, download_files, hn1, hn2, define_preprocessor, htk, hl1, hl2,
          convert_checkpoints, hpj]
  · intro c1 c2 pt evs hn1 hn2 htk hl1 hl2 hpj hra
    simp [main, hlk, download_files, hn1, hn2, define_preprocessor, htk, hl1, hl2,
          convert_checkpoints, hpj, hra]
  · have hg := getReqs_download env p hf
    cases hok : isOkE (env.net (configUrl hf)) with
    | false =>
      simp only [hok] at hg
      left
      rw [getUrls_main env p hf hlk]
      simp [getUrls, hg]
    | true =>
      simp only [hok] at hg
      right
      rw [getUrls_main env p hf hlk]
      simp [getUrls, hg]

/-- C2 witness: a network failure on the config GET becomes the run result. -/
theorem claim2_witness :
    (main failEnv preset0).2 = Except.error (Err.network (configUrl hf0)) :=
  (claim2_errors_propagate failEnv preset0 hf0 (Err.network (configUrl hf0))
    (by decide)).1 rfl

end DistilBertConvert
